import Mathlib

/-!
Shallow embedding of `src/system/ulib/hypervisor/virtio.cpp` (legacy
virtio-over-PCI transport and virtqueue engine of the hypervisor library).

Machine integers are modelled as `Nat` with explicit reductions modulo the
relevant power of two where the C arithmetic can wrap; `mx_status_t` is
modelled as `Int`.  Guest-memory pointers held in `virtio_queue_t` are
modelled as `Nat` addresses with `0` playing the role of `NULL` (matching
`memset(queue, 0, sizeof(*queue))`, which leaves every pointer field null).
The ring contents that the code reads and writes through those pointers
(`avail->idx`, `avail->ring[]`, the descriptor table, `used->idx`,
`used->ring[]`) live in guest memory, not in the queue struct, and are
modelled by a separate `guest_rings` record that a `memset` of the struct
does not touch.
-/

namespace Virtio

/-- 2^16, the modulus of `uint16_t` arithmetic. -/
def U16_MOD : Nat := 65536

/-- 2^32, the modulus of `uint32_t` arithmetic. -/
def U32_MOD : Nat := 4294967296

/-- 2^64, the modulus of `uint64_t`/`uintptr_t`/`size_t` arithmetic. -/
def U64_MOD : Nat := 18446744073709551616

/-- Modelled from the spec: the page size used by `PCI_ALIGN` and the
pfn-to-address computation (`PAGE_SIZE` comes from a header outside the
repository snapshot; the spec's layout formulas use a 4 KiB page). -/
def PAGE_SIZE : Nat := 4096

/-! Magenta status codes.  The numeric values come from headers outside the
repository snapshot; only their distinctness and `MX_OK = 0` matter. -/

def MX_OK : Int := 0
def MX_ERR_INTERNAL : Int := -1
def MX_ERR_NOT_SUPPORTED : Int := -2
def MX_ERR_INVALID_ARGS : Int := -10
def MX_ERR_NOT_FOUND : Int := -25
def MX_ERR_OUT_OF_RANGE : Int := -33
def MX_ERR_IO_DATA_INTEGRITY : Int := -42
def MX_ERR_STOP : Int := -60
def MX_ERR_NEXT : Int := -61

/-- Modelled from the spec: the "queue event" bit of the interrupt status
byte (`VIRTIO_ISR_QUEUE`, from the virtio header outside the snapshot). -/
def VIRTIO_ISR_QUEUE : Nat := 1

/-- `VRING_DESC_F_NEXT`: descriptor continues via the `next` field. -/
def VRING_DESC_F_NEXT : Nat := 1

/-- `VRING_DESC_F_WRITE`: buffer is device-writable. -/
def VRING_DESC_F_WRITE : Nat := 2

/-! Sizes used by `virtio_queue_set_pfn`.  `sizeof(queue->desc[0])` is the
size of `struct vring_desc` (u64 addr + u32 len + u16 flags + u16 next =
16 bytes); `sizeof(queue->avail->ring[0])` is a `uint16_t` entry (2 bytes);
`sizeof(queue->used->ring[0])` is a `struct vring_used_elem` (u32 id +
u32 len = 8 bytes).  `sizeof(queue->avail)`, `sizeof(queue->used)`,
`sizeof(queue->used_event)` and `sizeof(queue->avail_event)` in the source
take the size of the *pointer field itself* (8 bytes on the 64-bit
targets this code builds for), not of the pointed-to object. -/

def SIZEOF_VRING_DESC : Nat := 16
def SIZEOF_AVAIL_RING_ELEM : Nat := 2
def SIZEOF_USED_RING_ELEM : Nat := 8
def SIZEOF_PTR : Nat := 8

/-- `virtio_queue_t`: ring size, consumption cursor (`index`, a `uint16_t`),
pfn, and the five guest-memory view pointers (`0` models `NULL`).  The
mutex and condition variable have no bearing on the sequential semantics
modelled here and are omitted. -/
structure virtio_queue where
  size : Nat
  index : Nat
  pfn : Nat
  desc : Nat
  avail : Nat
  used_event : Nat
  used : Nat
  avail_event : Nat
deriving Repr, DecidableEq

/-- The queue after `memset(queue, 0, sizeof(*queue))`. -/
def zeroQueue : virtio_queue :=
  { size := 0, index := 0, pfn := 0, desc := 0, avail := 0
    used_event := 0, used := 0, avail_event := 0 }

/-- `virtio_device_t`: the fields `virtio_pci_legacy_read`/`write` and the
queue operations touch.  `num_queues` is the length of the `queues` array;
the device mutex is omitted as above. -/
structure virtio_device where
  features : Nat
  status : Nat
  isr_status : Nat
  queue_sel : Nat
  queues : List virtio_queue
  guest_physmem_addr : Nat
  guest_physmem_size : Nat
deriving Repr, DecidableEq

/-- `device->num_queues` (always the length of the queue array). -/
def num_queues (d : virtio_device) : Nat := d.queues.length

/-- One `struct vring_desc` as read from the guest descriptor table:
`addr` is `u64`, `len` is `u32`, `flags` and `next` are `u16`. -/
structure vring_desc where
  addr : Nat
  len : Nat
  flags : Nat
  next : Nat
deriving Repr, DecidableEq

/-- The guest-memory ring contents behind a queue's view pointers:
`avail->idx` and the `avail->ring[]` entries (`uint16_t`), the descriptor
table, and `used->idx` / `used->ring[]` (id, len pairs).  Indexing is by
plain `Nat`; the code always indexes through `ring_index`. -/
structure guest_rings where
  avail_idx : Nat
  avail_ring : Nat → Nat
  descs : Nat → vring_desc
  used_idx : Nat
  used_ring : Nat → Nat × Nat

/-- `ring_index`: circular index into a ring (`index % queue->size`).
`queue->size = 0` would be division by zero (undefined behaviour) in C;
theorems that evaluate this carry `0 < q.size`. -/
def ring_index (q : virtio_queue) (index : Nat) : Nat := index % q.size

/-- `ring_avail_count`: 0 when `queue->avail` is `NULL`, otherwise the C
`int` value of `queue->avail->idx - queue->index`.  Both operands are
`uint16_t`, so C integer promotion performs the subtraction in `int`: the
result is the *signed* difference, not the value modulo 2^16. -/
def ring_avail_count (q : virtio_queue) (m : guest_rings) : Int :=
  if q.avail = 0 then 0 else (m.avail_idx : Int) - (q.index : Int)

/-- `virtio_queue_next_avail_locked`: returns the status, the descriptor
head index written through `*index` (`none` on `MX_ERR_NOT_FOUND`), and
the updated queue (cursor `index` incremented as a `uint16_t`). -/
def virtio_queue_next_avail_locked (q : virtio_queue) (m : guest_rings) :
    Int × Option Nat × virtio_queue :=
  if ring_avail_count q m < 1 then (MX_ERR_NOT_FOUND, none, q)
  else (MX_OK, some (m.avail_ring (ring_index q q.index)),
        { q with index := (q.index + 1) % U16_MOD })

/-- `virtio_queue_next_avail`: takes the queue mutex and calls the locked
form; sequentially identical to it. -/
def virtio_queue_next_avail (q : virtio_queue) (m : guest_rings) :
    Int × Option Nat × virtio_queue :=
  virtio_queue_next_avail_locked q m

/-- `virtio_queue_signal`: under the queue mutex, `cnd_signal` the
available-ring condition variable iff `ring_avail_count(queue) > 0`.
Returns whether the signal fired. -/
def virtio_queue_signal (q : virtio_queue) (m : guest_rings) : Bool :=
  0 < ring_avail_count q m

/-- `virtio_queue_return`: write the used-ring element at
`ring_index(queue, used->idx)`, increment `used->idx` (a `uint16_t` in
guest memory), then set `VIRTIO_ISR_QUEUE` in the device's `isr_status`.
The C code stores through `queue->used` unconditionally; theorems about
this function carry `q.used ≠ 0` and `0 < q.size` where the C code would
otherwise have undefined behaviour. -/
def virtio_queue_return (q : virtio_queue) (m : guest_rings)
    (d : virtio_device) (index len : Nat) : guest_rings × virtio_device :=
  let slot := ring_index q m.used_idx
  let m' := { m with
    used_ring := fun i => if i = slot then (index, len) else m.used_ring i
    used_idx := (m.used_idx + 1) % U16_MOD }
  (m', { d with isr_status := d.isr_status ||| VIRTIO_ISR_QUEUE })

/-- `PCI_ALIGN(n)` = `(((uintptr_t)n) + 4095) & ~4095`: round up to the
next 4096-byte boundary.  The addition wraps at 2^64; clearing the low 12
bits of a 64-bit value is `x / 4096 * 4096`. -/
def PCI_ALIGN (n : Nat) : Nat := ((n + 4095) % U64_MOD) / 4096 * 4096

/-- `guest_paddr_to_host_vaddr(device, addr)`:
`device->guest_physmem_addr + addr` in `uintptr_t` arithmetic. -/
def guest_paddr_to_host_vaddr (d : virtio_device) (addr : Nat) : Nat :=
  (d.guest_physmem_addr + addr) % U64_MOD

/-- Guest-physical address of the descriptor table: `pfn * PAGE_SIZE`.
(The multiplication is modelled at `uintptr_t` width; `PAGE_SIZE` comes
from a header outside the snapshot and the spec's layout formula is
`pfn × page_size`.) -/
def vq_desc_paddr (pfn : Nat) : Nat := (pfn * PAGE_SIZE) % U64_MOD

/-- `desc_size = queue->size * sizeof(queue->desc[0])`. -/
def vq_desc_size (size : Nat) : Nat := (size * SIZEOF_VRING_DESC) % U64_MOD

/-- `avail_paddr = desc_paddr + desc_size`. -/
def vq_avail_paddr (pfn size : Nat) : Nat :=
  (vq_desc_paddr pfn + vq_desc_size size) % U64_MOD

/-- `avail_size = sizeof(queue->avail) + queue->size * sizeof(queue->avail->ring[0])`
(note: `sizeof(queue->avail)` is the size of the pointer field, 8). -/
def vq_avail_size (size : Nat) : Nat :=
  (SIZEOF_PTR + (size * SIZEOF_AVAIL_RING_ELEM) % U64_MOD) % U64_MOD

/-- `used_event_paddr = avail_paddr + avail_size`. -/
def vq_used_event_paddr (pfn size : Nat) : Nat :=
  (vq_avail_paddr pfn size + vq_avail_size size) % U64_MOD

/-- `used_paddr = PCI_ALIGN(used_event_paddr + used_event_size)` where
`used_event_size = sizeof(queue->used_event)` is a pointer size, 8. -/
def vq_used_paddr (pfn size : Nat) : Nat :=
  PCI_ALIGN ((vq_used_event_paddr pfn size + SIZEOF_PTR) % U64_MOD)

/-- `used_size = sizeof(queue->used) + queue->size * sizeof(queue->used->ring[0])`. -/
def vq_used_size (size : Nat) : Nat :=
  (SIZEOF_PTR + (size * SIZEOF_USED_RING_ELEM) % U64_MOD) % U64_MOD

/-- `avail_event_paddr = used_paddr + used_size`. -/
def vq_avail_event_paddr (pfn size : Nat) : Nat :=
  (vq_used_paddr pfn size + vq_used_size size) % U64_MOD

/-- The `end` value checked by `virtio_queue_set_pfn`:
`avail_event_host_paddr + avail_event_size` (with
`avail_event_size = sizeof(queue->avail_event)`, a pointer size). -/
def vq_layout_end (d : virtio_device) (pfn size : Nat) : Nat :=
  (guest_paddr_to_host_vaddr d (vq_avail_event_paddr pfn size) + SIZEOF_PTR) % U64_MOD

/-- The out-of-bounds test in `virtio_queue_set_pfn`:
`end < desc_paddr || end > mem_addr + mem_size`. -/
def vq_layout_oob (d : virtio_device) (pfn size : Nat) : Prop :=
  vq_layout_end d pfn size < vq_desc_paddr pfn ∨
  vq_layout_end d pfn size > (d.guest_physmem_addr + d.guest_physmem_size) % U64_MOD

instance (d : virtio_device) (pfn size : Nat) : Decidable (vq_layout_oob d pfn size) :=
  inferInstanceAs (Decidable (_ ∨ _))

/-- `virtio_queue_set_pfn`: store `pfn`, derive the five view pointers
(host virtual addresses) from the ring layout, and check the layout end
against guest memory; on failure `memset` the whole struct to zero and
return `MX_ERR_OUT_OF_RANGE`. -/
def virtio_queue_set_pfn (q : virtio_queue) (d : virtio_device) (pfn : Nat) :
    virtio_queue × Int :=
  if vq_layout_oob d pfn q.size then (zeroQueue, MX_ERR_OUT_OF_RANGE)
  else
    ({ q with
        pfn := pfn
        desc := guest_paddr_to_host_vaddr d (vq_desc_paddr pfn)
        avail := guest_paddr_to_host_vaddr d (vq_avail_paddr pfn q.size)
        used_event := guest_paddr_to_host_vaddr d (vq_used_event_paddr pfn q.size)
        used := guest_paddr_to_host_vaddr d (vq_used_paddr pfn q.size)
        avail_event := guest_paddr_to_host_vaddr d (vq_avail_event_paddr pfn q.size) },
     MX_OK)

/-! The legacy PCI register interface.  Port offsets come from the virtio
header outside the snapshot; these are the legacy virtio-over-PCI values
the spec's register table describes. -/

def VIRTIO_PCI_DEVICE_FEATURES : Nat := 0
def VIRTIO_PCI_DRIVER_FEATURES : Nat := 4
def VIRTIO_PCI_QUEUE_PFN : Nat := 8
def VIRTIO_PCI_QUEUE_SIZE : Nat := 12
def VIRTIO_PCI_QUEUE_SELECT : Nat := 14
def VIRTIO_PCI_QUEUE_NOTIFY : Nat := 16
def VIRTIO_PCI_DEVICE_STATUS : Nat := 18
def VIRTIO_PCI_ISR_STATUS : Nat := 19
def VIRTIO_PCI_DEVICE_CFG_BASE : Nat := 20

/-- `selected_queue`: `&device->queues[device->queue_sel]` when
`queue_sel < num_queues`, otherwise `NULL`. -/
def selected_queue (d : virtio_device) : Option virtio_queue :=
  if d.queue_sel < num_queues d then d.queues.get? d.queue_sel else none

/-- The `mx_vcpu_io_t` out-value of a read: access size and value. -/
structure mx_vcpu_io_t where
  access_size : Nat
  value : Nat
deriving Repr, DecidableEq

/-- The `mx_packet_guest_io_t` payload of a write: the guest's access size
and the raw written value (`u8`/`u16`/`u32` union reads take the low
bits). -/
structure mx_packet_guest_io_t where
  access_size : Nat
  value : Nat
deriving Repr, DecidableEq

/-- `io->u8` / `io->u16` / `io->u32`. -/
def guest_io_u8 (io : mx_packet_guest_io_t) : Nat := io.value % 256
def guest_io_u16 (io : mx_packet_guest_io_t) : Nat := io.value % U16_MOD
def guest_io_u32 (io : mx_packet_guest_io_t) : Nat := io.value % U32_MOD

/-- `virtio_pci_legacy_read`.  `devRead` models the device-specific
`device->ops->read` callback (out of scope for this transport).  Returns
the status, the `vcpu_io` out-value (`none` when the C code returns
without writing it), and the resulting device (the `ISR_STATUS` read
clears `isr_status`). -/
def virtio_pci_legacy_read
    (devRead : virtio_device → Nat → Int × Option mx_vcpu_io_t × virtio_device)
    (d : virtio_device) (bar : Nat) (port : Nat) :
    Int × Option mx_vcpu_io_t × virtio_device :=
  if bar ≠ 0 then (MX_ERR_NOT_SUPPORTED, none, d)
  else if port = VIRTIO_PCI_DEVICE_FEATURES then
    (MX_OK, some ⟨4, d.features⟩, d)
  else if port = VIRTIO_PCI_QUEUE_PFN then
    match selected_queue d with
    | none => (MX_ERR_NOT_SUPPORTED, none, d)
    | some q => (MX_OK, some ⟨4, q.pfn⟩, d)
  else if port = VIRTIO_PCI_QUEUE_SIZE then
    match selected_queue d with
    | none => (MX_ERR_NOT_SUPPORTED, none, d)
    | some q => (MX_OK, some ⟨2, q.size⟩, d)
  else if port = VIRTIO_PCI_DEVICE_STATUS then
    (MX_OK, some ⟨1, d.status⟩, d)
  else if port = VIRTIO_PCI_ISR_STATUS then
    (MX_OK, some ⟨1, d.isr_status⟩, { d with isr_status := 0 })
  else if VIRTIO_PCI_DEVICE_CFG_BASE ≤ port then
    devRead d (port - VIRTIO_PCI_DEVICE_CFG_BASE)
  else (MX_ERR_NOT_SUPPORTED, none, d)

/-- Observable actions of the `QUEUE_NOTIFY` write path. -/
inductive NotifyEvent where
  /-- `device->ops->queue_notify(device, queue_sel)` was invoked. -/
  | queue_notify_cb (queue_sel : Nat)
  /-- `virtio_queue_signal` fired `cnd_signal` (the ring was non-empty). -/
  | queue_signal (queue_sel : Nat)
  /-- `pci_interrupt(&device->pci_device)` was invoked. -/
  | interrupt
deriving Repr, DecidableEq

/-- `virtio_pci_legacy_write`.  `qnotify` models the optional
`device->ops->queue_notify` callback (it may mutate the device, e.g. its
`isr_status`); `devWrite` models the device-specific config write;
`rings` gives the guest ring memory of each queue (used by
`virtio_queue_signal`).  `pci_interrupt` belongs to the external PCI
layer and is modelled as succeeding.  The result is `none` exactly where
the C code dereferences a `NULL` queue pointer (undefined behaviour):
the `QUEUE_SIZE` store performs no `selected_queue` check. -/
def virtio_pci_legacy_write
    (qnotify : Option (virtio_device → Nat → Int × virtio_device))
    (devWrite : virtio_device → Nat → mx_packet_guest_io_t → Int × virtio_device)
    (rings : Nat → guest_rings)
    (d : virtio_device) (bar : Nat) (port : Nat) (io : mx_packet_guest_io_t) :
    Option (Int × virtio_device × List NotifyEvent) :=
  if bar ≠ 0 then some (MX_ERR_NOT_SUPPORTED, d, [])
  else if port = VIRTIO_PCI_DRIVER_FEATURES then
    if io.access_size ≠ 4 then some (MX_ERR_IO_DATA_INTEGRITY, d, [])
    else if guest_io_u32 io ≠ d.features then some (MX_ERR_INVALID_ARGS, d, [])
    else some (MX_OK, d, [])
  else if port = VIRTIO_PCI_DEVICE_STATUS then
    if io.access_size ≠ 1 then some (MX_ERR_IO_DATA_INTEGRITY, d, [])
    else some (MX_OK, { d with status := guest_io_u8 io }, [])
  else if port = VIRTIO_PCI_QUEUE_PFN then
    if io.access_size ≠ 4 then some (MX_ERR_IO_DATA_INTEGRITY, d, [])
    else
      match selected_queue d with
      | none => some (MX_ERR_NOT_SUPPORTED, d, [])
      | some q =>
        let r := virtio_queue_set_pfn q d (guest_io_u32 io)
        some (r.2, { d with queues := d.queues.set d.queue_sel r.1 }, [])
  else if port = VIRTIO_PCI_QUEUE_SIZE then
    if io.access_size ≠ 2 then some (MX_ERR_IO_DATA_INTEGRITY, d, [])
    else
      match selected_queue d with
      | none => none
      | some q =>
        some (MX_OK,
          { d with queues := d.queues.set d.queue_sel { q with size := guest_io_u16 io } },
          [])
  else if port = VIRTIO_PCI_QUEUE_SELECT then
    if io.access_size ≠ 2 then some (MX_ERR_IO_DATA_INTEGRITY, d, [])
    else if num_queues d ≤ guest_io_u16 io then some (MX_ERR_NOT_SUPPORTED, d, [])
    else some (MX_OK, { d with queue_sel := guest_io_u16 io }, [])
  else if port = VIRTIO_PCI_QUEUE_NOTIFY then
    if io.access_size ≠ 2 then some (MX_ERR_IO_DATA_INTEGRITY, d, [])
    else if num_queues d ≤ guest_io_u16 io then some (MX_ERR_NOT_SUPPORTED, d, [])
    else
      let queue_sel := guest_io_u16 io
      match qnotify with
      | some cb =>
        let r := cb d queue_sel
        if r.1 ≠ MX_OK then some (r.1, r.2, [.queue_notify_cb queue_sel])
        else if 0 < r.2.isr_status then
          some (MX_OK, r.2, [.queue_notify_cb queue_sel, .interrupt])
        else
          some (MX_OK, r.2,
            .queue_notify_cb queue_sel ::
              (if virtio_queue_signal (r.2.queues.getD queue_sel zeroQueue) (rings queue_sel)
               then [.queue_signal queue_sel] else []))
      | none =>
        some (MX_OK, d,
          if virtio_queue_signal (d.queues.getD queue_sel zeroQueue) (rings queue_sel)
          then [.queue_signal queue_sel] else [])
  else if VIRTIO_PCI_DEVICE_CFG_BASE ≤ port then
    let r := devWrite d (port - VIRTIO_PCI_DEVICE_CFG_BASE) io
    some (r.1, r.2, [])
  else some (MX_ERR_NOT_SUPPORTED, d, [])

/-- The per-buffer handler passed to `virtio_queue_handler`: receives the
host address, the descriptor length and flags, and the accumulated
`used_len`; returns a status and the updated `used_len`. -/
def HandlerFn : Type := Nat → Nat → Nat → Nat → Int × Nat

/-- Whether a descriptor passes the bounds check of the chain walk:
`end = desc->addr + desc->len` (64-bit, wrapping) must satisfy
`¬(end < desc->addr) ∧ ¬(end > mem_size)`. -/
def desc_bounds_ok (dsc : vring_desc) (mem_size : Nat) : Prop :=
  ¬((dsc.addr + dsc.len) % U64_MOD < dsc.addr ∨
    (dsc.addr + dsc.len) % U64_MOD > mem_size)

instance (dsc : vring_desc) (mem_size : Nat) : Decidable (desc_bounds_ok dsc mem_size) :=
  inferInstanceAs (Decidable (¬(_ ∨ _)))

/-- The `do { ... } while (desc->flags & VRING_DESC_F_NEXT)` body of
`virtio_queue_handler`, with explicit fuel (the C loop has no cycle
guard, so a self-referential chain never terminates; `none` models a run
that is still looping when the fuel runs out).  Returns the status, the
final `used_len`, and the list of descriptor indices the handler was
invoked on, in invocation order. -/
def desc_chain_walk (h : HandlerFn) (d : virtio_device) (m : guest_rings) :
    Nat → Nat → Nat → Option (Int × Nat × List Nat)
  | 0, _, _ => none
  | fuel + 1, desc_index, used_len =>
    let dsc := m.descs desc_index
    if ¬desc_bounds_ok dsc d.guest_physmem_size then
      some (MX_ERR_OUT_OF_RANGE, used_len, [])
    else
      let r := h ((d.guest_physmem_addr + dsc.addr) % U64_MOD) dsc.len dsc.flags used_len
      if r.1 ≠ MX_OK then some (r.1, r.2, [desc_index])
      else if dsc.flags &&& VRING_DESC_F_NEXT ≠ 0 then
        match desc_chain_walk h d m fuel dsc.next r.2 with
        | none => none
        | some (st2, ul, inv) => some (st2, ul, desc_index :: inv)
      else some (MX_OK, r.2, [desc_index])

/-- `virtio_queue_handler`: pop one head from the available ring (an empty
ring is a no-op returning `MX_OK`), walk the descriptor chain, and on
success write the used-ring entry via `virtio_queue_return` and report
`MX_ERR_NEXT` when more work is pending.  Result components: status,
queue, guest rings, device, and the handler-invocation list. -/
def virtio_queue_handler (h : HandlerFn) (q : virtio_queue) (m : guest_rings)
    (d : virtio_device) (fuel : Nat) :
    Option (Int × virtio_queue × guest_rings × virtio_device × List Nat) :=
  match virtio_queue_next_avail q m with
  | (_, none, q1) => some (MX_OK, q1, m, d, [])
  | (_, some head, q1) =>
    match desc_chain_walk h d m fuel head 0 with
    | none => none
    | some (st, used_len, inv) =>
      if st ≠ MX_OK then some (st, q1, m, d, inv)
      else
        let r := virtio_queue_return q1 m d head used_len
        some (if 0 < ring_avail_count q1 r.1 then MX_ERR_NEXT else MX_OK,
              q1, r.1, r.2, inv)

/-! ## Theorems -/

/-- Helper: or-ing in the low bit makes a number odd. -/
lemma lor_one_mod_two (n : Nat) : (n ||| 1) % 2 = 1 := by
  have h := Nat.testBit_lor n 1 0
  rw [Nat.testBit_zero, Nat.testBit_zero, Nat.testBit_zero] at h
  rcases Nat.mod_two_eq_zero_or_one (n ||| 1) with h2 | h2
  · rw [h2] at h; simp at h
  · exact h2

/-! Concrete example states used by witnesses and counterexamples. -/

/-- A configured queue of capacity 4 with cursor 0 (views point into a
guest layout at page 1 of a small region; only non-nullness matters to
the ring operations). -/
def qB : virtio_queue :=
  { size := 4, index := 0, pfn := 1, desc := 4096, avail := 4160
    used_event := 4176, used := 8192, avail_event := 8232 }

/-- Guest rings for end-to-end scenario B: `avail->idx = 1` and avail
ring slot 0 holds descriptor index 2. -/
def mB : guest_rings :=
  { avail_idx := 1, avail_ring := fun i => if i = 0 then 2 else 0
    descs := fun _ => ⟨0, 0, 0, 0⟩, used_idx := 0, used_ring := fun _ => (0, 0) }

/-- C6: with `avail.idx = 1`, cursor 0 and avail slot 0 holding 2,
`next_available` returns head 2 and moves the cursor to 1; a second call
on the result reports `MX_ERR_NOT_FOUND` ("no work"); and in general a
queue with a positive available count yields the avail-ring entry at
`cursor mod capacity` and advances the cursor by one (as a `uint16_t`). -/
theorem claim_C6_next_avail :
    (∀ (q : virtio_queue) (m : guest_rings), 0 < q.size →
      1 ≤ ring_avail_count q m →
      virtio_queue_next_avail q m =
        (MX_OK, some (m.avail_ring (q.index % q.size)),
         { q with index := (q.index + 1) % U16_MOD })) ∧
    (virtio_queue_next_avail qB mB = (MX_OK, some 2, { qB with index := 1 }) ∧
     virtio_queue_next_avail { qB with index := 1 } mB =
       (MX_ERR_NOT_FOUND, none, { qB with index := 1 })) := by
  constructor
  · intro q m _ hc
    have hlt : ¬ ring_avail_count q m < 1 := by omega
    simp [virtio_queue_next_avail, virtio_queue_next_avail_locked, hlt, ring_index]
  · exact ⟨by decide, by decide⟩

/-- Witness for C6: the general clause applied to scenario B's state. -/
theorem claim_C6_witness :
    virtio_queue_next_avail qB mB =
      (MX_OK, some (mB.avail_ring (qB.index % qB.size)),
       { qB with index := (qB.index + 1) % U16_MOD }) :=
  claim_C6_next_avail.1 qB mB (by decide) (by decide)

/-- A queue whose producer index has wrapped past 2^16: the guest-memory
`avail->idx` (a `uint16_t`) reads 0 while the consumer cursor is 65535,
i.e. exactly one entry is pending modulo 2^16. -/
def qC3 : virtio_queue :=
  { size := 4, index := 65535, pfn := 1, desc := 4096, avail := 4160
    used_event := 4176, used := 8192, avail_event := 8232 }

/-- Rings for the wrapped state of C3. -/
def mC3 : guest_rings :=
  { avail_idx := 0, avail_ring := fun _ => 7
    descs := fun _ => ⟨0, 0, 0, 0⟩, used_idx := 0, used_ring := fun _ => (0, 0) }

/-- C3: the claim says the available count equals
`(avail.idx − cursor) mod 2^16` and is never negative, so a queue with
pending entries is never reported empty.  The code disagrees: both
operands of `avail->idx - queue->index` are `uint16_t`, C integer
promotion performs the subtraction in `int`, and `ring_avail_count`
returns that signed value.  With `avail->idx = 0` (wrapped) and cursor
65535 the pending count modulo 2^16 is 1, yet the code computes −65535
and `next_avail` reports the queue empty (`MX_ERR_NOT_FOUND`). -/
theorem claim_C3_wrapped_count_negative :
    ring_avail_count qC3 mC3 = -65535 ∧
    (mC3.avail_idx + U16_MOD - qC3.index) % U16_MOD = 1 ∧
    virtio_queue_next_avail qC3 mC3 = (MX_ERR_NOT_FOUND, none, qC3) := by
  decide

/-- C9: a queue whose avail pointer is `NULL` (as after a failed
`set_pfn`, or before any pfn was set) has available count 0, so
`next_available` reports "no work" without advancing the cursor, and the
one-shot `virtio_queue_handler` returns `MX_OK` with no handler
invocation, no ring access, and all state unchanged. -/
theorem claim_C9_null_avail_no_work :
    ∀ (h : HandlerFn) (q : virtio_queue) (m : guest_rings)
      (d : virtio_device) (fuel : Nat),
    q.avail = 0 →
    ring_avail_count q m = 0 ∧
    virtio_queue_next_avail q m = (MX_ERR_NOT_FOUND, none, q) ∧
    virtio_queue_handler h q m d fuel = some (MX_OK, q, m, d, []) := by
  intro h q m d fuel ha
  have hc : ring_avail_count q m = 0 := by simp [ring_avail_count, ha]
  have hna : virtio_queue_next_avail q m = (MX_ERR_NOT_FOUND, none, q) := by
    simp [virtio_queue_next_avail, virtio_queue_next_avail_locked, hc]
  refine ⟨hc, hna, ?_⟩
  simp [virtio_queue_handler, hna]

/-- A trivially successful buffer handler for witnesses. -/
def hOk : HandlerFn := fun _ _ _ used_len => (MX_OK, used_len)

/-- A device with one (zeroed) queue over a 4 KiB guest region. -/
def d9 : virtio_device :=
  { features := 0, status := 0, isr_status := 0, queue_sel := 0
    queues := [zeroQueue], guest_physmem_addr := 0, guest_physmem_size := 4096 }

/-- Witness for C9: the freshly zeroed queue. -/
theorem claim_C9_witness :
    ring_avail_count zeroQueue mC3 = 0 ∧
    virtio_queue_next_avail zeroQueue mC3 = (MX_ERR_NOT_FOUND, none, zeroQueue) ∧
    virtio_queue_handler hOk zeroQueue mC3 d9 3 = some (MX_OK, zeroQueue, mC3, d9, []) :=
  claim_C9_null_avail_no_work hOk zeroQueue mC3 d9 3 rfl

/-! Ring-layout offset computations reduce to the plain (non-wrapping)
formulas when `pfn` and the ring capacity are 32-bit values, since every
intermediate stays far below 2^64. -/

lemma vq_desc_paddr_eq (pfn : Nat) (hp : pfn < U32_MOD) :
    vq_desc_paddr pfn = pfn * PAGE_SIZE := by
  unfold vq_desc_paddr PAGE_SIZE U32_MOD U64_MOD at *; omega

lemma vq_avail_paddr_eq (pfn size : Nat) (hp : pfn < U32_MOD) (hs : size < U32_MOD) :
    vq_avail_paddr pfn size = pfn * PAGE_SIZE + size * SIZEOF_VRING_DESC := by
  unfold vq_avail_paddr vq_desc_paddr vq_desc_size
    PAGE_SIZE SIZEOF_VRING_DESC U32_MOD U64_MOD at *
  omega

lemma vq_used_event_paddr_eq (pfn size : Nat) (hp : pfn < U32_MOD) (hs : size < U32_MOD) :
    vq_used_event_paddr pfn size =
      pfn * PAGE_SIZE + size * SIZEOF_VRING_DESC +
        (SIZEOF_PTR + size * SIZEOF_AVAIL_RING_ELEM) := by
  unfold vq_used_event_paddr vq_avail_paddr vq_avail_size vq_desc_paddr vq_desc_size
    PAGE_SIZE SIZEOF_VRING_DESC SIZEOF_PTR SIZEOF_AVAIL_RING_ELEM U32_MOD U64_MOD at *
  omega

lemma PCI_ALIGN_le (x : Nat) (hx : x + 4095 < U64_MOD) : PCI_ALIGN x ≤ x + 4095 := by
  unfold PCI_ALIGN U64_MOD at *; omega

lemma vq_used_paddr_eq (pfn size : Nat) (hp : pfn < U32_MOD) (hs : size < U32_MOD) :
    vq_used_paddr pfn size =
      PCI_ALIGN (pfn * PAGE_SIZE + size * SIZEOF_VRING_DESC +
        (SIZEOF_PTR + size * SIZEOF_AVAIL_RING_ELEM) + SIZEOF_PTR) := by
  have hx : pfn * PAGE_SIZE + size * SIZEOF_VRING_DESC +
      (SIZEOF_PTR + size * SIZEOF_AVAIL_RING_ELEM) + SIZEOF_PTR < U64_MOD := by
    unfold PAGE_SIZE SIZEOF_VRING_DESC SIZEOF_PTR SIZEOF_AVAIL_RING_ELEM
      U32_MOD U64_MOD at *
    omega
  unfold vq_used_paddr
  rw [vq_used_event_paddr_eq pfn size hp hs, Nat.mod_eq_of_lt hx]

lemma vq_avail_event_paddr_eq (pfn size : Nat) (hp : pfn < U32_MOD) (hs : size < U32_MOD) :
    vq_avail_event_paddr pfn size =
      PCI_ALIGN (pfn * PAGE_SIZE + size * SIZEOF_VRING_DESC +
        (SIZEOF_PTR + size * SIZEOF_AVAIL_RING_ELEM) + SIZEOF_PTR) +
      (SIZEOF_PTR + size * SIZEOF_USED_RING_ELEM) := by
  have h8 : size * SIZEOF_USED_RING_ELEM < U64_MOD := by
    unfold SIZEOF_USED_RING_ELEM U32_MOD U64_MOD at *; omega
  have hsum : SIZEOF_PTR + size * SIZEOF_USED_RING_ELEM < U64_MOD := by
    unfold SIZEOF_PTR SIZEOF_USED_RING_ELEM U32_MOD U64_MOD at *; omega
  have hy : pfn * PAGE_SIZE + size * SIZEOF_VRING_DESC +
      (SIZEOF_PTR + size * SIZEOF_AVAIL_RING_ELEM) + SIZEOF_PTR + 4095 < U64_MOD := by
    unfold PAGE_SIZE SIZEOF_VRING_DESC SIZEOF_PTR SIZEOF_AVAIL_RING_ELEM
      U32_MOD U64_MOD at *
    omega
  have hfinal : PCI_ALIGN (pfn * PAGE_SIZE + size * SIZEOF_VRING_DESC +
      (SIZEOF_PTR + size * SIZEOF_AVAIL_RING_ELEM) + SIZEOF_PTR) +
      (SIZEOF_PTR + size * SIZEOF_USED_RING_ELEM) < U64_MOD := by
    have hle := PCI_ALIGN_le _ hy
    unfold SIZEOF_PTR SIZEOF_USED_RING_ELEM at *
    unfold PAGE_SIZE SIZEOF_VRING_DESC SIZEOF_AVAIL_RING_ELEM U32_MOD U64_MOD at *
    omega
  unfold vq_avail_event_paddr vq_used_size
  rw [vq_used_paddr_eq pfn size hp hs, Nat.mod_eq_of_lt h8, Nat.mod_eq_of_lt hsum,
    Nat.mod_eq_of_lt hfinal]

/-- C1: for every capacity and pfn (32-bit register values), a successful
`set_pfn` places the five regions at exactly the legacy layout offsets:
descriptor table at `pfn * PAGE_SIZE` spanning `capacity * 16` bytes, the
available ring immediately after it (header plus `capacity` 2-byte
entries), the used-event cell immediately after the available ring, the
used ring at the next page-aligned address (header plus `capacity`
used-entry-size entries), and the avail-event cell immediately after the
used ring; all view pointers are the guest offsets translated by the
guest-memory base. -/
theorem claim_C1_layout_offsets (q : virtio_queue) (d : virtio_device) (pfn : Nat)
    (hp : pfn < U32_MOD) (hs : q.size < U32_MOD)
    (hok : ¬ vq_layout_oob d pfn q.size) :
    virtio_queue_set_pfn q d pfn =
      ({ q with
          pfn := pfn
          desc := guest_paddr_to_host_vaddr d (pfn * PAGE_SIZE)
          avail := guest_paddr_to_host_vaddr d
            (pfn * PAGE_SIZE + q.size * SIZEOF_VRING_DESC)
          used_event := guest_paddr_to_host_vaddr d
            (pfn * PAGE_SIZE + q.size * SIZEOF_VRING_DESC +
              (SIZEOF_PTR + q.size * SIZEOF_AVAIL_RING_ELEM))
          used := guest_paddr_to_host_vaddr d
            (PCI_ALIGN (pfn * PAGE_SIZE + q.size * SIZEOF_VRING_DESC +
              (SIZEOF_PTR + q.size * SIZEOF_AVAIL_RING_ELEM) + SIZEOF_PTR))
          avail_event := guest_paddr_to_host_vaddr d
            (PCI_ALIGN (pfn * PAGE_SIZE + q.size * SIZEOF_VRING_DESC +
              (SIZEOF_PTR + q.size * SIZEOF_AVAIL_RING_ELEM) + SIZEOF_PTR) +
              (SIZEOF_PTR + q.size * SIZEOF_USED_RING_ELEM)) },
       MX_OK) ∧
    PCI_ALIGN (pfn * PAGE_SIZE + q.size * SIZEOF_VRING_DESC +
      (SIZEOF_PTR + q.size * SIZEOF_AVAIL_RING_ELEM) + SIZEOF_PTR) % PAGE_SIZE = 0 ∧
    pfn * PAGE_SIZE + q.size * SIZEOF_VRING_DESC +
      (SIZEOF_PTR + q.size * SIZEOF_AVAIL_RING_ELEM) + SIZEOF_PTR ≤
      PCI_ALIGN (pfn * PAGE_SIZE + q.size * SIZEOF_VRING_DESC +
        (SIZEOF_PTR + q.size * SIZEOF_AVAIL_RING_ELEM) + SIZEOF_PTR) := by
  refine ⟨?_, ?_, ?_⟩
  · simp only [virtio_queue_set_pfn, if_neg hok]
    rw [vq_desc_paddr_eq pfn hp, vq_avail_paddr_eq pfn q.size hp hs,
      vq_used_event_paddr_eq pfn q.size hp hs, vq_used_paddr_eq pfn q.size hp hs,
      vq_avail_event_paddr_eq pfn q.size hp hs]
  · unfold PCI_ALIGN PAGE_SIZE U64_MOD; omega
  · unfold PCI_ALIGN PAGE_SIZE SIZEOF_VRING_DESC SIZEOF_PTR SIZEOF_AVAIL_RING_ELEM
      U32_MOD U64_MOD at *
    omega

/-- Scenario-A queue: capacity 4, no pfn set yet. -/
def qA : virtio_queue := { zeroQueue with size := 4 }

/-- Scenario-A device: a single queue over a 1 MiB guest region. -/
def dA : virtio_device :=
  { features := 0, status := 0, isr_status := 0, queue_sel := 0
    queues := [qA], guest_physmem_addr := 0, guest_physmem_size := 1048576 }

/-- Witness for C1 (end-to-end scenario A): capacity 4, pfn 16, 1 MiB
region: `set_pfn` succeeds and the views land at the exact offsets
(desc at 65536, avail at 65600, used-event at 65616, used at the next
page boundary 69632, avail-event at 69672). -/
theorem claim_C1_witness :
    virtio_queue_set_pfn qA dA 16 =
      ({ qA with
          pfn := 16
          desc := guest_paddr_to_host_vaddr dA (16 * PAGE_SIZE)
          avail := guest_paddr_to_host_vaddr dA
            (16 * PAGE_SIZE + qA.size * SIZEOF_VRING_DESC)
          used_event := guest_paddr_to_host_vaddr dA
            (16 * PAGE_SIZE + qA.size * SIZEOF_VRING_DESC +
              (SIZEOF_PTR + qA.size * SIZEOF_AVAIL_RING_ELEM))
          used := guest_paddr_to_host_vaddr dA
            (PCI_ALIGN (16 * PAGE_SIZE + qA.size * SIZEOF_VRING_DESC +
              (SIZEOF_PTR + qA.size * SIZEOF_AVAIL_RING_ELEM) + SIZEOF_PTR))
          avail_event := guest_paddr_to_host_vaddr dA
            (PCI_ALIGN (16 * PAGE_SIZE + qA.size * SIZEOF_VRING_DESC +
              (SIZEOF_PTR + qA.size * SIZEOF_AVAIL_RING_ELEM) + SIZEOF_PTR) +
              (SIZEOF_PTR + qA.size * SIZEOF_USED_RING_ELEM)) },
       MX_OK) ∧
    PCI_ALIGN (16 * PAGE_SIZE + qA.size * SIZEOF_VRING_DESC +
      (SIZEOF_PTR + qA.size * SIZEOF_AVAIL_RING_ELEM) + SIZEOF_PTR) % PAGE_SIZE = 0 ∧
    16 * PAGE_SIZE + qA.size * SIZEOF_VRING_DESC +
      (SIZEOF_PTR + qA.size * SIZEOF_AVAIL_RING_ELEM) + SIZEOF_PTR ≤
      PCI_ALIGN (16 * PAGE_SIZE + qA.size * SIZEOF_VRING_DESC +
        (SIZEOF_PTR + qA.size * SIZEOF_AVAIL_RING_ELEM) + SIZEOF_PTR) :=
  claim_C1_layout_offsets qA dA 16 (by decide) (by decide) (by decide)

/-- C2: a pfn whose computed layout end overflows or exceeds the guest
memory region makes `set_pfn` zero every field of the queue struct and
return `MX_ERR_OUT_OF_RANGE`; afterwards, a `set_pfn` with a valid pfn
(after the capacity is re-set on the zeroed queue — `size2 = 0` is the
literally just-zeroed case) succeeds and repopulates all five view
pointers from the recomputed layout. -/
theorem claim_C2_oob_zeroes_queue (q : virtio_queue) (d : virtio_device) (pfn : Nat) :
    (vq_layout_oob d pfn q.size →
      virtio_queue_set_pfn q d pfn = (zeroQueue, MX_ERR_OUT_OF_RANGE)) ∧
    (∀ size2 pfn2, ¬ vq_layout_oob d pfn2 size2 →
      virtio_queue_set_pfn { zeroQueue with size := size2 } d pfn2 =
        ({ size := size2, index := 0, pfn := pfn2
           desc := guest_paddr_to_host_vaddr d (vq_desc_paddr pfn2)
           avail := guest_paddr_to_host_vaddr d (vq_avail_paddr pfn2 size2)
           used_event := guest_paddr_to_host_vaddr d (vq_used_event_paddr pfn2 size2)
           used := guest_paddr_to_host_vaddr d (vq_used_paddr pfn2 size2)
           avail_event := guest_paddr_to_host_vaddr d (vq_avail_event_paddr pfn2 size2) },
         MX_OK)) := by
  constructor
  · intro hbad
    simp [virtio_queue_set_pfn, if_pos hbad]
  · intro size2 pfn2 hok
    simp [virtio_queue_set_pfn, if_neg hok, zeroQueue]

/-- Guest region of two pages used by the C2 witness. -/
def d2v : virtio_device :=
  { features := 0, status := 0, isr_status := 0, queue_sel := 0
    queues := [qA], guest_physmem_addr := 0, guest_physmem_size := 8192 }

/-- Witness for C2: with a two-page guest region and capacity 4, pfn 1
puts the layout end (8240) past the region, so the queue is zeroed with
a bounds error; then pfn 0 (capacity re-set to 4) succeeds and
repopulates every view (desc 0, avail 64, used-event 80, used 4096,
avail-event 4136). -/
theorem claim_C2_witness :
    virtio_queue_set_pfn qA d2v 1 = (zeroQueue, MX_ERR_OUT_OF_RANGE) ∧
    virtio_queue_set_pfn { zeroQueue with size := 4 } d2v 0 =
      ({ size := 4, index := 0, pfn := 0, desc := 0, avail := 64
         used_event := 80, used := 4096, avail_event := 4136 },
       MX_OK) :=
  ⟨(claim_C2_oob_zeroes_queue qA d2v 1).1 (by decide),
   (claim_C2_oob_zeroes_queue qA d2v 1).2 4 0 (by decide)⟩

/-! Trivial device-specific callbacks for concrete instances. -/

/-- A device-specific config-write callback that does nothing. -/
def devW0 : virtio_device → Nat → mx_packet_guest_io_t → Int × virtio_device :=
  fun d _ _ => (MX_OK, d)

/-- A device-specific config-read callback that does nothing. -/
def devR0 : virtio_device → Nat → Int × Option mx_vcpu_io_t × virtio_device :=
  fun d _ => (MX_OK, none, d)

/-- Per-queue guest rings for concrete instances: every queue sees the
scenario-B rings (one pending entry). -/
def rg0 : Nat → guest_rings := fun _ => mB

/-- C10: a `DRIVER_FEATURES` write of correct width succeeds when the
value exactly equals the advertised feature mask and is rejected with
`MX_ERR_INVALID_ARGS` otherwise, and in both cases the device (and hence
every queue) is left completely unchanged and no action is taken: the
accepted feature set is recorded nowhere. -/
theorem claim_C10_driver_features_noop :
    ∀ (qn : Option (virtio_device → Nat → Int × virtio_device))
      (dw : virtio_device → Nat → mx_packet_guest_io_t → Int × virtio_device)
      (rg : Nat → guest_rings) (d : virtio_device) (io : mx_packet_guest_io_t),
    io.access_size = 4 →
    (guest_io_u32 io = d.features →
      virtio_pci_legacy_write qn dw rg d 0 VIRTIO_PCI_DRIVER_FEATURES io =
        some (MX_OK, d, [])) ∧
    (guest_io_u32 io ≠ d.features →
      virtio_pci_legacy_write qn dw rg d 0 VIRTIO_PCI_DRIVER_FEATURES io =
        some (MX_ERR_INVALID_ARGS, d, [])) := by
  intro qn dw rg d io hsz
  constructor <;> intro hv <;>
    simp [virtio_pci_legacy_write, VIRTIO_PCI_DRIVER_FEATURES, hsz, hv]

/-- A device advertising feature mask 7, one configured queue. -/
def d10 : virtio_device :=
  { features := 7, status := 0, isr_status := 0, queue_sel := 0
    queues := [qB], guest_physmem_addr := 0, guest_physmem_size := 1048576 }

/-- Witness for C10: echoing the advertised mask 7 back succeeds and
changes nothing. -/
theorem claim_C10_witness :
    virtio_pci_legacy_write none devW0 rg0 d10 0 VIRTIO_PCI_DRIVER_FEATURES ⟨4, 7⟩ =
      some (MX_OK, d10, []) :=
  (claim_C10_driver_features_noop none devW0 rg0 d10 ⟨4, 7⟩ rfl).1 (by decide)

/-- A device whose selected queue index (3) is out of range (1 queue). -/
def dC5 : virtio_device :=
  { features := 0, status := 0, isr_status := 0, queue_sel := 3
    queues := [qB], guest_physmem_addr := 0, guest_physmem_size := 1048576 }

/-- C5: with the selected queue out of range, `QUEUE_PFN` read/write and
`QUEUE_SIZE` read fail with `MX_ERR_NOT_SUPPORTED` and change nothing —
but the `QUEUE_SIZE` *write* case stores through the `NULL` selected
queue pointer with no check (modelled as `none` = undefined behaviour),
instead of failing cleanly as the claim states. -/
theorem claim_C5_queue_size_write_null_deref :
    virtio_pci_legacy_read devR0 dC5 0 VIRTIO_PCI_QUEUE_PFN =
      (MX_ERR_NOT_SUPPORTED, none, dC5) ∧
    virtio_pci_legacy_read devR0 dC5 0 VIRTIO_PCI_QUEUE_SIZE =
      (MX_ERR_NOT_SUPPORTED, none, dC5) ∧
    virtio_pci_legacy_write none devW0 rg0 dC5 0 VIRTIO_PCI_QUEUE_PFN ⟨4, 1⟩ =
      some (MX_ERR_NOT_SUPPORTED, dC5, []) ∧
    virtio_pci_legacy_write none devW0 rg0 dC5 0 VIRTIO_PCI_QUEUE_SIZE ⟨2, 8⟩ =
      none := by
  decide

/-- C8: after `virtio_queue_return` sets the queue-event bit, the first
`ISR_STATUS` read returns a nonzero byte containing `VIRTIO_ISR_QUEUE`
and resets `isr_status` to zero, so an immediately following second read
returns zero.  (`q.used ≠ 0` and `0 < q.size` are the preconditions under
which the C `virtio_queue_return` is defined behaviour.) -/
theorem claim_C8_isr_read_clear :
    ∀ (devRead : virtio_device → Nat → Int × Option mx_vcpu_io_t × virtio_device)
      (q : virtio_queue) (m : guest_rings) (d : virtio_device) (index len : Nat),
    q.used ≠ 0 → 0 < q.size →
    (virtio_queue_return q m d index len).2.isr_status ≠ 0 ∧
    (virtio_queue_return q m d index len).2.isr_status &&& VIRTIO_ISR_QUEUE =
      VIRTIO_ISR_QUEUE ∧
    virtio_pci_legacy_read devRead (virtio_queue_return q m d index len).2 0
        VIRTIO_PCI_ISR_STATUS =
      (MX_OK, some ⟨1, (virtio_queue_return q m d index len).2.isr_status⟩,
       { (virtio_queue_return q m d index len).2 with isr_status := 0 }) ∧
    virtio_pci_legacy_read devRead
        { (virtio_queue_return q m d index len).2 with isr_status := 0 } 0
        VIRTIO_PCI_ISR_STATUS =
      (MX_OK, some ⟨1, 0⟩,
       { (virtio_queue_return q m d index len).2 with isr_status := 0 }) := by
  intro devRead q m d index len _ _
  have hisr : (virtio_queue_return q m d index len).2.isr_status =
      d.isr_status ||| 1 := by
    simp [virtio_queue_return, VIRTIO_ISR_QUEUE]
  refine ⟨?_, ?_, ?_, ?_⟩
  · rw [hisr]
    have h2 := lor_one_mod_two d.isr_status
    omega
  · rw [hisr]
    unfold VIRTIO_ISR_QUEUE
    rw [Nat.and_one_is_mod, lor_one_mod_two]
  · simp [virtio_pci_legacy_read, VIRTIO_PCI_DEVICE_FEATURES, VIRTIO_PCI_QUEUE_PFN,
      VIRTIO_PCI_QUEUE_SIZE, VIRTIO_PCI_DEVICE_STATUS, VIRTIO_PCI_ISR_STATUS]
  · simp [virtio_pci_legacy_read, VIRTIO_PCI_DEVICE_FEATURES, VIRTIO_PCI_QUEUE_PFN,
      VIRTIO_PCI_QUEUE_SIZE, VIRTIO_PCI_DEVICE_STATUS, VIRTIO_PCI_ISR_STATUS]

/-- Witness for C8 on concrete states. -/
theorem claim_C8_witness :
    (virtio_queue_return qB mB d10 2 100).2.isr_status ≠ 0 ∧
    (virtio_queue_return qB mB d10 2 100).2.isr_status &&& VIRTIO_ISR_QUEUE =
      VIRTIO_ISR_QUEUE ∧
    virtio_pci_legacy_read devR0 (virtio_queue_return qB mB d10 2 100).2 0
        VIRTIO_PCI_ISR_STATUS =
      (MX_OK, some ⟨1, (virtio_queue_return qB mB d10 2 100).2.isr_status⟩,
       { (virtio_queue_return qB mB d10 2 100).2 with isr_status := 0 }) ∧
    virtio_pci_legacy_read devR0
        { (virtio_queue_return qB mB d10 2 100).2 with isr_status := 0 } 0
        VIRTIO_PCI_ISR_STATUS =
      (MX_OK, some ⟨1, 0⟩,
       { (virtio_queue_return qB mB d10 2 100).2 with isr_status := 0 }) :=
  claim_C8_isr_read_clear devR0 qB mB d10 2 100 (by decide) (by decide)

/-- A `queue_notify` callback that succeeds after raising the queue
event bit (as a device processing the ring via `virtio_queue_return`
would). -/
def cb4 : virtio_device → Nat → Int × virtio_device :=
  fun d _ => (MX_OK, { d with isr_status := 1 })

/-- A device with one configured queue and a clear `isr_status`. -/
def d4 : virtio_device :=
  { features := 0, status := 0, isr_status := 0, queue_sel := 0
    queues := [qB], guest_physmem_addr := 0, guest_physmem_size := 1048576 }

/-- C4 counterexample: a valid 2-byte `QUEUE_NOTIFY` write whose callback
succeeds and leaves `isr_status` nonzero.  The transport raises the
interrupt and returns: the event trace is callback-then-interrupt with
*no* waiter signal, even though the ring is non-empty (the third conjunct
shows `virtio_queue_signal` would have fired had it been called).  The
claim's "callback, then signal, then interrupt, all three in order" is
therefore false on the success path. -/
theorem claim_C4_counterexample :
    virtio_pci_legacy_write (some cb4) devW0 rg0 d4 0 VIRTIO_PCI_QUEUE_NOTIFY ⟨2, 0⟩ =
      some (MX_OK, { d4 with isr_status := 1 },
        [NotifyEvent.queue_notify_cb 0, NotifyEvent.interrupt]) ∧
    virtio_queue_signal ({ d4 with isr_status := 1 }.queues.getD 0 zeroQueue) (rg0 0) =
      true ∧
    NotifyEvent.queue_signal 0 ∉
      [NotifyEvent.queue_notify_cb 0, NotifyEvent.interrupt] := by
  decide

/-- C4 (amended): for a valid queue index written to `QUEUE_NOTIFY` with
the correct width and a registered callback that succeeds, the transport
first invokes the callback; if `isr_status` is then nonzero it raises the
guest interrupt and returns *without* signalling the waiter; only when
`isr_status` is zero does it signal the queue's blocked waiter (the
signal firing iff the ring is non-empty). -/
theorem claim_C4_amended_notify_order :
    ∀ (cb : virtio_device → Nat → Int × virtio_device)
      (dw : virtio_device → Nat → mx_packet_guest_io_t → Int × virtio_device)
      (rg : Nat → guest_rings) (d : virtio_device) (io : mx_packet_guest_io_t),
    io.access_size = 2 → guest_io_u16 io < num_queues d →
    (cb d (guest_io_u16 io)).1 = MX_OK →
    (0 < (cb d (guest_io_u16 io)).2.isr_status →
      virtio_pci_legacy_write (some cb) dw rg d 0 VIRTIO_PCI_QUEUE_NOTIFY io =
        some (MX_OK, (cb d (guest_io_u16 io)).2,
          [.queue_notify_cb (guest_io_u16 io), .interrupt])) ∧
    ((cb d (guest_io_u16 io)).2.isr_status = 0 →
      virtio_pci_legacy_write (some cb) dw rg d 0 VIRTIO_PCI_QUEUE_NOTIFY io =
        some (MX_OK, (cb d (guest_io_u16 io)).2,
          .queue_notify_cb (guest_io_u16 io) ::
            (if virtio_queue_signal
                  ((cb d (guest_io_u16 io)).2.queues.getD (guest_io_u16 io) zeroQueue)
                  (rg (guest_io_u16 io))
             then [.queue_signal (guest_io_u16 io)] else []))) := by
  intro cb dw rg d io hsz hq hst
  have hnq : ¬ num_queues d ≤ guest_io_u16 io := by omega
  constructor <;> intro hisr <;>
    simp [virtio_pci_legacy_write, VIRTIO_PCI_DRIVER_FEATURES, VIRTIO_PCI_DEVICE_STATUS,
      VIRTIO_PCI_QUEUE_PFN, VIRTIO_PCI_QUEUE_SIZE, VIRTIO_PCI_QUEUE_SELECT,
      VIRTIO_PCI_QUEUE_NOTIFY, hsz, hnq, hst, hisr]

/-- Witness for C4 (amended), instantiated at the counterexample state:
the success-with-interrupt branch. -/
theorem claim_C4_witness :
    virtio_pci_legacy_write (some cb4) devW0 rg0 d4 0 VIRTIO_PCI_QUEUE_NOTIFY ⟨2, 0⟩ =
      some (MX_OK, (cb4 d4 (guest_io_u16 ⟨2, 0⟩)).2,
        [.queue_notify_cb (guest_io_u16 ⟨2, 0⟩), .interrupt]) :=
  (claim_C4_amended_notify_order cb4 devW0 rg0 d4 ⟨2, 0⟩ rfl (by decide)
    (by decide)).1 (by decide)

/-- Helper for C7: every descriptor the chain walk invoked the handler on
passed the bounds check. -/
lemma desc_chain_walk_invoked_bounds (h : HandlerFn) (d : virtio_device)
    (m : guest_rings) :
    ∀ (fuel idx ul : Nat) (st : Int) (ul' : Nat) (inv : List Nat),
    desc_chain_walk h d m fuel idx ul = some (st, ul', inv) →
    ∀ i ∈ inv, desc_bounds_ok (m.descs i) d.guest_physmem_size := by
  intro fuel
  induction fuel with
  | zero =>
    intro idx ul st ul' inv hw
    simp [desc_chain_walk] at hw
  | succ n ih =>
    intro idx ul st ul' inv hw
    simp only [desc_chain_walk] at hw
    by_cases hb : desc_bounds_ok (m.descs idx) d.guest_physmem_size
    · rw [if_neg (not_not_intro hb)] at hw
      split at hw
      · -- handler returned an error: only `idx` was invoked
        cases hw
        intro i hi
        simp only [List.mem_singleton] at hi
        exact hi ▸ hb
      · split at hw
        · -- has-next: recursive case
          split at hw
          · exact absurd hw (by simp)
          · rename_i st2 ul2 inv2 heq
            cases hw
            intro i hi
            rcases List.mem_cons.mp hi with rfl | hi2
            · exact hb
            · exact ih _ _ _ _ _ heq i hi2
        · -- chain end: only `idx` was invoked
          cases hw
          intro i hi
          simp only [List.mem_singleton] at hi
          exact hi ▸ hb
    · rw [if_pos hb] at hw
      cases hw
      intro i hi
      simp at hi

/-- C7: the chain walk of `virtio_queue_handler` never invokes the buffer
handler on a descriptor whose `addr + len` overflows or exceeds guest
memory; whenever the one-shot handler returns `MX_ERR_OUT_OF_RANGE`, the
guest rings and device are untouched (in particular no used-ring entry
was written); and the walk, arriving at an out-of-bounds descriptor,
returns the bounds error immediately without invoking the handler on
it. -/
theorem claim_C7_bounds_abort (h : HandlerFn) (d : virtio_device) (m : guest_rings) :
    (∀ (q : virtio_queue) (fuel : Nat) (st : Int) (q' : virtio_queue)
       (m' : guest_rings) (d' : virtio_device) (inv : List Nat),
       virtio_queue_handler h q m d fuel = some (st, q', m', d', inv) →
       (∀ i ∈ inv, desc_bounds_ok (m.descs i) d.guest_physmem_size) ∧
       (st = MX_ERR_OUT_OF_RANGE → m' = m ∧ d' = d)) ∧
    (∀ (idx ul fuel : Nat),
       ¬ desc_bounds_ok (m.descs idx) d.guest_physmem_size →
       desc_chain_walk h d m (fuel + 1) idx ul =
         some (MX_ERR_OUT_OF_RANGE, ul, [])) := by
  constructor
  · intro q fuel st q' m' d' inv hh
    unfold virtio_queue_handler at hh
    split at hh
    · -- empty ring: no-op success
      cases hh
      refine ⟨by simp, ?_⟩
      intro he
      exact absurd he (by decide)
    · rename_i head q1 hna
      split at hh
      · exact absurd hh (by simp)
      · rename_i st1 ul1 inv1 heq
        split at hh
        · -- the walk (or the handler) failed: state untouched
          cases hh
          exact ⟨desc_chain_walk_invoked_bounds h d m _ _ _ _ _ _ heq, fun _ => ⟨rfl, rfl⟩⟩
        · -- full success: status is MX_ERR_NEXT or MX_OK, never a bounds error
          cases hh
          refine ⟨desc_chain_walk_invoked_bounds h d m _ _ _ _ _ _ heq, ?_⟩
          intro he
          split at he <;> exact absurd he (by decide)
  · intro idx ul fuel hbad
    simp [desc_chain_walk, hbad]

/-- The queue used by the C7 witness (capacity 4, cursor 0, non-null
views). -/
def q7 : virtio_queue :=
  { size := 4, index := 0, pfn := 0, desc := 100, avail := 200
    used_event := 300, used := 400, avail_event := 500 }

/-- The device for the C7 witness: 1000 bytes of guest memory. -/
def d7 : virtio_device :=
  { features := 0, status := 0, isr_status := 0, queue_sel := 0
    queues := [q7], guest_physmem_addr := 0, guest_physmem_size := 1000 }

/-- A two-descriptor chain whose first descriptor (index 0: addr 0,
len 10, has-next) is in bounds and whose second (index 1: addr 2000,
len 10) escapes the 1000-byte guest region. -/
def m7 : guest_rings :=
  { avail_idx := 1, avail_ring := fun _ => 0
    descs := fun i => if i = 0 then ⟨0, 10, 1, 1⟩ else ⟨2000, 10, 0, 0⟩
    used_idx := 0, used_ring := fun _ => (0, 0) }

/-- A handler that accepts every buffer and adds 10 to the used length. -/
def h7 : HandlerFn := fun _ _ _ used_len => (MX_OK, used_len + 10)

/-- Witness for C7: on the concrete chain the one-shot handler stops with
`MX_ERR_OUT_OF_RANGE` having invoked the handler only on descriptor 0
(which is in bounds), leaving rings and device untouched; and the walk
started directly at the bad descriptor 1 errors without any handler
invocation. -/
theorem claim_C7_witness :
    ((∀ i ∈ [0], desc_bounds_ok (m7.descs i) d7.guest_physmem_size) ∧
     (MX_ERR_OUT_OF_RANGE = MX_ERR_OUT_OF_RANGE → m7 = m7 ∧ d7 = d7)) ∧
    desc_chain_walk h7 d7 m7 3 1 0 = some (MX_ERR_OUT_OF_RANGE, 0, []) :=
  ⟨(claim_C7_bounds_abort h7 d7 m7).1 q7 5 MX_ERR_OUT_OF_RANGE
      { q7 with index := 1 } m7 d7 [0] rfl,
   (claim_C7_bounds_abort h7 d7 m7).2 1 0 2 (by decide)⟩

end Virtio
